import Mathlib

/-!
Verification of the Capability Gateway & Resilience Layer of the baileys-server
repository against its natural-language specification.

The development shallowly embeds four components of the source:

* the circuit breaker (`src/infrastructure/resilience/circuit-breaker.ts`),
* the dual-window rate limiter (the Hono `rateLimiter` middleware),
* the in-memory job queue with dead-letter support (`MemoryQueue`),
* the MCP tool-call interface (`McpTestClient.callTool`) with its
  allowlist/denylist configuration.

Machine time (`Date.now()`) is modelled as a `Nat` millisecond clock passed
explicitly to each operation; in every real execution the clock is monotone,
so stored timestamps never exceed the current time and truncated `Nat`
subtraction agrees with JavaScript integer subtraction in every comparison
the code performs.
-/

namespace Breaker

/-- The three breaker states (`CircuitState` in the source). -/
inductive CircuitState
  | CLOSED
  | OPEN
  | HALF_OPEN
deriving DecidableEq, Repr

/-- `CircuitBreakerOptions` (the `name` field is dropped: it is only used
for logging). -/
structure CircuitBreakerOptions where
  failureThreshold : Nat
  resetTimeout : Nat
  halfOpenRequests : Nat
deriving DecidableEq, Repr

/-- The mutable fields of class `CircuitBreaker`. -/
structure CB where
  state : CircuitState
  failures : Nat
  successes : Nat
  lastFailureTime : Nat
deriving DecidableEq, Repr

/-- Field initializers of `CircuitBreaker`: state CLOSED, counters 0. -/
def CB.init : CB :=
  { state := .CLOSED, failures := 0, successes := 0, lastFailureTime := 0 }

/-- `CircuitBreaker.transitionTo` (lines 84-100): only the transition to
CLOSED clears both counters; the transition to HALF_OPEN clears only the
success counter; the transition to OPEN clears neither. -/
def transitionTo (s : CB) (newState : CircuitState) : CB :=
  let s1 := { s with state := newState }
  match newState with
  | .CLOSED => { s1 with failures := 0, successes := 0 }
  | .HALF_OPEN => { s1 with successes := 0 }
  | .OPEN => s1

/-- `CircuitBreaker.onSuccess` (lines 62-71). -/
def onSuccess (opts : CircuitBreakerOptions) (s : CB) : CB :=
  if s.state = CircuitState.HALF_OPEN then
    let s1 := { s with successes := s.successes + 1 }
    if opts.halfOpenRequests ≤ s1.successes then transitionTo s1 .CLOSED else s1
  else
    { s with failures := 0 }

/-- `CircuitBreaker.onFailure` (lines 73-82); `now` is `Date.now()`. -/
def onFailure (opts : CircuitBreakerOptions) (now : Nat) (s : CB) : CB :=
  let s1 := { s with failures := s.failures + 1, lastFailureTime := now }
  if s1.state = CircuitState.HALF_OPEN then transitionTo s1 .OPEN
  else if opts.failureThreshold ≤ s1.failures then transitionTo s1 .OPEN
  else s1

/-- The OPEN-state gate at the top of `CircuitBreaker.execute`
(lines 44-50).  `none` models throwing `Errors.circuitOpen`. -/
def checkOpen (opts : CircuitBreakerOptions) (now : Nat) (s : CB) : Option CB :=
  if s.state = CircuitState.OPEN then
    if opts.resetTimeout ≤ now - s.lastFailureTime then
      some (transitionTo s .HALF_OPEN)
    else
      none
  else
    some s

/-- Observable outcome of one `execute` call: either the circuit-open error
was thrown without invoking the wrapped function, or the function ran and
either succeeded or failed. -/
inductive ExecOutcome
  | circuitOpen
  | ran (success : Bool)
deriving DecidableEq, Repr

/-- `CircuitBreaker.execute` (lines 42-60).  `fnSucceeds` tells whether the
wrapped function would succeed if invoked. -/
def execute (opts : CircuitBreakerOptions) (now : Nat) (fnSucceeds : Bool)
    (s : CB) : ExecOutcome × CB :=
  match checkOpen opts now s with
  | none => (.circuitOpen, s)
  | some s1 =>
      if fnSucceeds then (.ran true, onSuccess opts s1)
      else (.ran false, onFailure opts now s1)

/-- `n` consecutive failing `execute` calls, all at clock value `now`. -/
def iterFail (opts : CircuitBreakerOptions) (now : Nat) : Nat → CB → CB
  | 0, s => s
  | n + 1, s => iterFail opts now n (execute opts now false s).2

/-- `n` consecutive succeeding `execute` calls, all at clock value `now`. -/
def iterSucc (opts : CircuitBreakerOptions) (now : Nat) : Nat → CB → CB
  | 0, s => s
  | n + 1, s => iterSucc opts now n (execute opts now true s).2

lemma execute_fail_closed (opts : CircuitBreakerOptions) (now : Nat) (s : CB)
    (h : s.state = .CLOSED) :
    (execute opts now false s).2 =
      if opts.failureThreshold ≤ s.failures + 1 then
        { s with state := .OPEN, failures := s.failures + 1, lastFailureTime := now }
      else
        { s with failures := s.failures + 1, lastFailureTime := now } := by
  simp only [execute, checkOpen, h, onFailure, transitionTo]
  split <;> simp_all

lemma iterFail_closed (opts : CircuitBreakerOptions) (now : Nat) :
    ∀ (n : Nat) (s : CB), s.state = .CLOSED →
      s.failures + n < opts.failureThreshold →
      (iterFail opts now n s).state = .CLOSED ∧
      (iterFail opts now n s).failures = s.failures + n := by
  intro n
  induction n with
  | zero => intro s hs _; simp [iterFail, hs]
  | succ n ih =>
      intro s hs hlt
      have hstep : (execute opts now false s).2 =
          { s with failures := s.failures + 1, lastFailureTime := now } := by
        rw [execute_fail_closed opts now s hs]
        have : ¬ opts.failureThreshold ≤ s.failures + 1 := by omega
        simp [this]
      have h1 : (execute opts now false s).2.state = .CLOSED := by rw [hstep]; exact hs
      have h2 : (execute opts now false s).2.failures = s.failures + 1 := by rw [hstep]
      have := ih (execute opts now false s).2 h1 (by rw [h2]; omega)
      simp only [iterFail]
      constructor
      · exact this.1
      · rw [this.2, h2]; omega

lemma iterSucc_halfOpen (opts : CircuitBreakerOptions) (now : Nat) :
    ∀ (n : Nat) (s : CB), s.state = .HALF_OPEN →
      s.successes + n < opts.halfOpenRequests →
      (iterSucc opts now n s).state = .HALF_OPEN ∧
      (iterSucc opts now n s).successes = s.successes + n := by
  intro n
  induction n with
  | zero => intro s hs _; simp [iterSucc, hs]
  | succ n ih =>
      intro s hs hlt
      have hstep : (execute opts now true s).2 =
          { s with successes := s.successes + 1 } := by
        simp only [execute, checkOpen, hs, onSuccess]
        have : ¬ opts.halfOpenRequests ≤ s.successes + 1 := by omega
        simp [this, hs]
      have h1 : (execute opts now true s).2.state = .HALF_OPEN := by rw [hstep]; exact hs
      have h2 : (execute opts now true s).2.successes = s.successes + 1 := by rw [hstep]
      have := ih (execute opts now true s).2 h1 (by rw [h2]; omega)
      simp only [iterSucc]
      constructor
      · exact this.1
      · rw [this.2, h2]; omega

/-- **C3.** The circuit breaker, starting CLOSED, transitions to OPEN after
`failureThreshold` consecutive failures (and is still CLOSED after any
smaller number); while OPEN and before `resetTimeout` has elapsed since the
last failure, `execute` throws the circuit-open error without invoking the
wrapped function and leaves the state unchanged; once `resetTimeout` has
elapsed, the next `execute` call moves the breaker to HALF_OPEN and runs the
function; `halfOpenRequests` consecutive successes in HALF_OPEN reach
CLOSED (with HALF_OPEN retained before the last one); and a single failure
in HALF_OPEN returns the breaker to OPEN. -/
theorem claim_C3 (opts : CircuitBreakerOptions) (now : Nat) (b : Bool)
    (sOpen sHalf : CB)
    (hT : 1 ≤ opts.failureThreshold)
    (hH : 1 ≤ opts.halfOpenRequests)
    (hO : sOpen.state = .OPEN)
    (hHs : sHalf.state = .HALF_OPEN)
    (hHz : sHalf.successes = 0) :
    ((iterFail opts now opts.failureThreshold CB.init).state = .OPEN ∧
      ∀ n < opts.failureThreshold, (iterFail opts now n CB.init).state = .CLOSED) ∧
    (now - sOpen.lastFailureTime < opts.resetTimeout →
      execute opts now b sOpen = (.circuitOpen, sOpen)) ∧
    (opts.resetTimeout ≤ now - sOpen.lastFailureTime →
      checkOpen opts now sOpen = some (transitionTo sOpen .HALF_OPEN) ∧
      (transitionTo sOpen .HALF_OPEN).state = .HALF_OPEN ∧
      (execute opts now b sOpen).1 = .ran b) ∧
    ((iterSucc opts now opts.halfOpenRequests sHalf).state = .CLOSED ∧
      ∀ n < opts.halfOpenRequests, (iterSucc opts now n sHalf).state = .HALF_OPEN) ∧
    (execute opts now false sHalf).2.state = .OPEN := by
  refine ⟨⟨?_, ?_⟩, ?_, ?_, ⟨?_, ?_⟩, ?_⟩
  · -- threshold consecutive failures from the initial state open the breaker
    obtain ⟨m, hm⟩ : ∃ m, opts.failureThreshold = m + 1 :=
      ⟨opts.failureThreshold - 1, by omega⟩
    have hpre := iterFail_closed opts now m CB.init rfl (by simp [CB.init]; omega)
    have hiter : ∀ k s, iterFail opts now (k + 1) s =
        (execute opts now false (iterFail opts now k s)).2 := by
      intro k
      induction k with
      | zero => intro s; simp [iterFail]
      | succ k ih => intro s; simp only [iterFail] at ih ⊢; exact ih _
    rw [hm, hiter m CB.init]
    rw [execute_fail_closed opts now _ hpre.1]
    have : opts.failureThreshold ≤ (iterFail opts now m CB.init).failures + 1 := by
      rw [hpre.2]; simp [CB.init]; omega
    simp [this]
  · intro n hn
    exact (iterFail_closed opts now n CB.init rfl (by simp [CB.init]; omega)).1
  · -- OPEN, timeout not elapsed: reject without running, state unchanged
    intro hlt
    have : ¬ opts.resetTimeout ≤ now - sOpen.lastFailureTime := by omega
    simp [execute, checkOpen, hO, this]
  · -- OPEN, timeout elapsed: move to HALF_OPEN and run the function
    intro hge
    have hco : checkOpen opts now sOpen = some (transitionTo sOpen .HALF_OPEN) := by
      simp [checkOpen, hO, hge]
    refine ⟨hco, by simp [transitionTo], ?_⟩
    simp only [execute, hco]
    cases b <;> simp
  · -- halfOpenRequests consecutive successes close the breaker
    obtain ⟨m, hm⟩ : ∃ m, opts.halfOpenRequests = m + 1 :=
      ⟨opts.halfOpenRequests - 1, by omega⟩
    have hpre := iterSucc_halfOpen opts now m sHalf hHs (by omega)
    have hiter : ∀ k s, iterSucc opts now (k + 1) s =
        (execute opts now true (iterSucc opts now k s)).2 := by
      intro k
      induction k with
      | zero => intro s; simp [iterSucc]
      | succ k ih => intro s; simp only [iterSucc] at ih ⊢; exact ih _
    rw [hm, hiter m sHalf]
    have hcnt : opts.halfOpenRequests ≤ (iterSucc opts now m sHalf).successes + 1 := by
      rw [hpre.2, hHz]; omega
    simp [execute, checkOpen, hpre.1, onSuccess, hcnt, transitionTo]
  · intro n hn
    exact (iterSucc_halfOpen opts now n sHalf hHs (by omega)).1
  · -- a single failure in HALF_OPEN reopens the breaker
    simp [execute, checkOpen, hHs, onFailure, transitionTo]

/-- Witness for C3 at a concrete configuration and concrete states. -/
theorem claim_C3_witness :
    (1 ≤ (2 : Nat)) ∧ (1 ≤ (2 : Nat)) ∧
    (let opts : CircuitBreakerOptions :=
      { failureThreshold := 2, resetTimeout := 10, halfOpenRequests := 2 }
     let sOpen : CB := { state := .OPEN, failures := 2, successes := 0, lastFailureTime := 0 }
     let sHalf : CB := { state := .HALF_OPEN, failures := 2, successes := 0, lastFailureTime := 0 }
     ((iterFail opts 5 opts.failureThreshold CB.init).state = .OPEN ∧
       ∀ n < opts.failureThreshold, (iterFail opts 5 n CB.init).state = .CLOSED) ∧
     (5 - sOpen.lastFailureTime < opts.resetTimeout →
       execute opts 5 true sOpen = (.circuitOpen, sOpen)) ∧
     (opts.resetTimeout ≤ 5 - sOpen.lastFailureTime →
       checkOpen opts 5 sOpen = some (transitionTo sOpen .HALF_OPEN) ∧
       (transitionTo sOpen .HALF_OPEN).state = .HALF_OPEN ∧
       (execute opts 5 true sOpen).1 = .ran true) ∧
     ((iterSucc opts 5 opts.halfOpenRequests sHalf).state = .CLOSED ∧
       ∀ n < opts.halfOpenRequests, (iterSucc opts 5 n sHalf).state = .HALF_OPEN) ∧
     (execute opts 5 false sHalf).2.state = .OPEN) :=
  ⟨by decide, by decide,
    claim_C3
      { failureThreshold := 2, resetTimeout := 10, halfOpenRequests := 2 }
      5 true
      { state := .OPEN, failures := 2, successes := 0, lastFailureTime := 0 }
      { state := .HALF_OPEN, failures := 2, successes := 0, lastFailureTime := 0 }
      (by decide) (by decide) (by decide) (by decide) (by decide)⟩

/-- **C7, counterexample.**  The claim says both counters are reset on every
state transition.  With `failureThreshold = 2`, two failing calls from the
initial state make the breaker transition CLOSED → OPEN, yet the failure
counter afterwards is 2, not 0: `transitionTo` does not reset any counter on
a transition to OPEN. -/
theorem claim_C7_counterexample :
    (iterFail { failureThreshold := 2, resetTimeout := 10, halfOpenRequests := 1 }
        0 2 CB.init).state = .OPEN ∧
    (iterFail { failureThreshold := 2, resetTimeout := 10, halfOpenRequests := 1 }
        0 2 CB.init).failures = 2 ∧
    ¬ (iterFail { failureThreshold := 2, resetTimeout := 10, halfOpenRequests := 1 }
        0 2 CB.init).failures = 0 := by
  decide

/-- **C7, amended.**  Only the transition to CLOSED resets both counters;
the transition to HALF_OPEN resets the success counter but leaves the
failure counter unchanged; transitions to OPEN reset neither counter.  The
OPEN → HALF_OPEN transition is purely time-gated: from an OPEN state,
`checkOpen` lets a call through exactly when `resetTimeout` has elapsed
since the last failure, irrespective of any counter value, and the state it
passes to the call is the HALF_OPEN transition of the current state. -/
theorem claim_C7_amended (opts : CircuitBreakerOptions) (now : Nat) (s : CB)
    (hO : s.state = .OPEN) :
    ((transitionTo s .CLOSED).failures = 0 ∧ (transitionTo s .CLOSED).successes = 0) ∧
    ((transitionTo s .HALF_OPEN).successes = 0 ∧
      (transitionTo s .HALF_OPEN).failures = s.failures) ∧
    ((transitionTo s .OPEN).failures = s.failures ∧
      (transitionTo s .OPEN).successes = s.successes) ∧
    ((checkOpen opts now s).isSome ↔ opts.resetTimeout ≤ now - s.lastFailureTime) ∧
    (∀ f g : Nat,
      (checkOpen opts now { s with failures := f, successes := g }).isSome =
        (checkOpen opts now s).isSome) ∧
    (opts.resetTimeout ≤ now - s.lastFailureTime →
      checkOpen opts now s = some (transitionTo s .HALF_OPEN)) := by
  refine ⟨⟨rfl, rfl⟩, ⟨rfl, rfl⟩, ⟨rfl, rfl⟩, ?_, ?_, ?_⟩
  · simp only [checkOpen, hO, if_pos rfl]
    split <;> simp_all
  · intro f g
    simp only [checkOpen, hO]
    split
    · split <;> simp
    · simp
  · intro hge
    simp [checkOpen, hO, hge]

/-- Witness for the amended C7 at a concrete OPEN state. -/
theorem claim_C7_witness :
    ({ state := .OPEN, failures := 3, successes := 1, lastFailureTime := 4 } : CB).state
        = .OPEN ∧
    (let opts : CircuitBreakerOptions :=
      { failureThreshold := 3, resetTimeout := 10, halfOpenRequests := 2 }
     let s : CB := { state := .OPEN, failures := 3, successes := 1, lastFailureTime := 4 }
     ((transitionTo s .CLOSED).failures = 0 ∧ (transitionTo s .CLOSED).successes = 0) ∧
     ((transitionTo s .HALF_OPEN).successes = 0 ∧
       (transitionTo s .HALF_OPEN).failures = s.failures) ∧
     ((transitionTo s .OPEN).failures = s.failures ∧
       (transitionTo s .OPEN).successes = s.successes) ∧
     ((checkOpen opts 20 s).isSome ↔ opts.resetTimeout ≤ 20 - s.lastFailureTime) ∧
     (∀ f g : Nat,
       (checkOpen opts 20 { s with failures := f, successes := g }).isSome =
         (checkOpen opts 20 s).isSome) ∧
     (opts.resetTimeout ≤ 20 - s.lastFailureTime →
       checkOpen opts 20 s = some (transitionTo s .HALF_OPEN))) :=
  ⟨by decide,
    claim_C7_amended
      { failureThreshold := 3, resetTimeout := 10, halfOpenRequests := 2 }
      20
      { state := .OPEN, failures := 3, successes := 1, lastFailureTime := 4 }
      (by decide)⟩

end Breaker

namespace RateLimit

/-- `RateLimitEntry` of the rate-limiter middleware. -/
structure RateLimitEntry where
  count : Nat
  resetAt : Nat
  burstCount : Nat
  lastBurstReset : Nat
deriving DecidableEq, Repr

/-- `RateLimitConfig`. -/
structure RateLimitConfig where
  windowMs : Nat
  limit : Nat
  burstLimit : Nat
  burstWindowMs : Nat
deriving DecidableEq, Repr

/-- `RateLimits.REST`. -/
def RateLimits.REST : RateLimitConfig :=
  { windowMs := 60000, limit := 100, burstLimit := 10, burstWindowMs := 1000 }

/-- `RateLimits.MCP` (stricter than REST). -/
def RateLimits.MCP : RateLimitConfig :=
  { windowMs := 60000, limit := 30, burstLimit := 5, burstWindowMs := 1000 }

/-- Outcome of one pass through the middleware for one request:
admitted (`next()` called), rejected on the burst check, or rejected on the
sustained-window check.  Rejections carry the `Retry-After` header value in
seconds. -/
inductive Decision
  | admitted
  | burstRejected (retryAfterSeconds : Nat)
  | sustainedRejected (retryAfterSeconds : Nat)
deriving DecidableEq, Repr

/-- Sustained-window refresh: if no entry is stored for the identity or the
stored entry's sustained window has elapsed (`entry.resetAt < now`), a brand
new entry is created (note this also zeroes the burst counter and moves the
burst window start to `now`). -/
def refreshEntry (windowMs now : Nat) : Option RateLimitEntry → RateLimitEntry
  | some e =>
      if e.resetAt < now then
        { count := 0, resetAt := now + windowMs, burstCount := 0, lastBurstReset := now }
      else e
  | none =>
      { count := 0, resetAt := now + windowMs, burstCount := 0, lastBurstReset := now }

/-- Burst-window refresh: reset the burst counter if the burst window has
passed (`now - entry.lastBurstReset >= config.burstWindowMs`). -/
def refreshBurst (cfg : RateLimitConfig) (now : Nat) (e : RateLimitEntry) : RateLimitEntry :=
  if cfg.burstWindowMs ≤ now - e.lastBurstReset then
    { e with burstCount := 0, lastBurstReset := now }
  else e

/-- One request through the `rateLimiter` middleware for a single identity.
`limit` is the effective sustained limit (`keyInfo.rateLimit ?? defaultLimit`);
`stored` is the entry in `rateLimitStore` for the identity (`none` if
absent).  Both counters are incremented, then the burst check runs first and
the sustained check second; the (mutated) entry remains stored in every
branch, which the second component returns. -/
def rateLimiterStep (cfg : RateLimitConfig) (limit now : Nat)
    (stored : Option RateLimitEntry) : Decision × RateLimitEntry :=
  let e1 := refreshBurst cfg now (refreshEntry cfg.windowMs now stored)
  let e2 := { e1 with count := e1.count + 1, burstCount := e1.burstCount + 1 }
  if cfg.burstLimit < e2.burstCount then
    (.burstRejected 1, e2)
  else if limit < e2.count then
    (.sustainedRejected ((e2.resetAt - now + 999) / 1000), e2)
  else
    (.admitted, e2)

/-- **C4.**  For a fixed identity with sustained limit `L` and burst limit
`cfg.burstLimit`:
(i) a request arriving when the stored entry already counts `L` requests in
a live sustained window, with burst quota remaining, is rejected on the
sustained check with `Retry-After` equal to the milliseconds remaining
until the window reset, rounded up to seconds;
(ii) once the sustained window has elapsed, a new request is admitted;
(iii) a request arriving when the live burst window already counts
`cfg.burstLimit` requests is rejected on the burst check with `Retry-After`
of 1 second, even though the sustained counter is still below `L`. -/
theorem claim_C4 (cfg : RateLimitConfig) (L : Nat)
    (now1 now2 now3 : Nat) (e1 e2 e3 : RateLimitEntry)
    (h1a : e1.count = L)
    (h1b : now1 ≤ e1.resetAt)
    (h1c : (refreshBurst cfg now1 e1).burstCount + 1 ≤ cfg.burstLimit)
    (h2a : e2.resetAt < now2)
    (h2b : 1 ≤ L) (h2c : 1 ≤ cfg.burstLimit)
    (h3a : now3 ≤ e3.resetAt)
    (h3b : now3 - e3.lastBurstReset < cfg.burstWindowMs)
    (h3c : e3.burstCount = cfg.burstLimit)
    (h3d : e3.count < L) :
    (rateLimiterStep cfg L now1 (some e1)).1 =
      .sustainedRejected ((e1.resetAt - now1 + 999) / 1000) ∧
    (rateLimiterStep cfg L now2 (some e2)).1 = .admitted ∧
    (rateLimiterStep cfg L now3 (some e3)).1 = .burstRejected 1 := by
  refine ⟨?_, ?_, ?_⟩
  · -- (i) the (L+1)-th request of a live window is sustained-rejected
    have hfresh : ¬ e1.resetAt < now1 := by omega
    simp only [rateLimiterStep, refreshEntry, if_neg hfresh]
    have hbu : ¬ cfg.burstLimit < (refreshBurst cfg now1 e1).burstCount + 1 := by omega
    have hres : (refreshBurst cfg now1 e1).resetAt = e1.resetAt := by
      simp only [refreshBurst]; split <;> rfl
    have hcnt : (refreshBurst cfg now1 e1).count = e1.count := by
      simp only [refreshBurst]; split <;> rfl
    simp only [hbu, if_false, hcnt, hres, h1a]
    have : L < L + 1 := by omega
    simp [this]
  · -- (ii) after the window elapses the next request is admitted
    simp only [rateLimiterStep, refreshEntry, if_pos h2a, refreshBurst]
    split
    · have hb : ¬ cfg.burstLimit < 0 + 1 := by omega
      have hcc : ¬ L < 0 + 1 := by omega
      simp [hb, hcc]
    · have hb : ¬ cfg.burstLimit < 0 + 1 := by omega
      have hcc : ¬ L < 0 + 1 := by omega
      simp [hb, hcc]
  · -- (iii) the (B+1)-th request of a live burst window is burst-rejected
    have hfresh : ¬ e3.resetAt < now3 := by omega
    have hbw : ¬ cfg.burstWindowMs ≤ now3 - e3.lastBurstReset := by omega
    simp only [rateLimiterStep, refreshEntry, if_neg hfresh, refreshBurst, if_neg hbw]
    have : cfg.burstLimit < e3.burstCount + 1 := by omega
    simp [this]

/-- Witness for C4 with the MCP configuration (`L = 30`, burst limit 5). -/
theorem claim_C4_witness :
    (({ count := 30, resetAt := 60000, burstCount := 0, lastBurstReset := 59000 }
        : RateLimitEntry).count = 30) ∧
    (let cfg := RateLimits.MCP
     let e1 : RateLimitEntry :=
       { count := 30, resetAt := 60000, burstCount := 0, lastBurstReset := 59000 }
     let e2 : RateLimitEntry :=
       { count := 30, resetAt := 60000, burstCount := 5, lastBurstReset := 59500 }
     let e3 : RateLimitEntry :=
       { count := 10, resetAt := 60000, burstCount := 5, lastBurstReset := 59400 }
     (rateLimiterStep cfg 30 59500 (some e1)).1 =
       .sustainedRejected ((e1.resetAt - 59500 + 999) / 1000) ∧
     (rateLimiterStep cfg 30 60001 (some e2)).1 = .admitted ∧
     (rateLimiterStep cfg 30 59600 (some e3)).1 = .burstRejected 1) :=
  ⟨rfl,
    claim_C4 RateLimits.MCP 30 59500 60001 59600
      { count := 30, resetAt := 60000, burstCount := 0, lastBurstReset := 59000 }
      { count := 30, resetAt := 60000, burstCount := 5, lastBurstReset := 59500 }
      { count := 10, resetAt := 60000, burstCount := 5, lastBurstReset := 59400 }
      (by decide) (by decide) (by decide) (by decide) (by decide) (by decide)
      (by decide) (by decide) (by decide) (by decide)⟩

/-- **C8, counterexample.**  The claim says the elapse of the sustained
window never resets the burst counter or its window start.  Take the REST
configuration and a stored entry with `resetAt = 60000`, `burstCount = 7`,
`lastBurstReset = 59500`, and a request at `now = 60001`: the sustained
window has elapsed (`60000 < 60001`) while the burst window has not
(`60001 - 59500 = 501 < 1000`), yet after the call the stored entry has
`burstCount = 1` (not `7 + 1`) and `lastBurstReset = 60001`: the fresh
entry created on sustained-window elapse wipes the burst state too. -/
theorem claim_C8_counterexample :
    ((60000 : Nat) < 60001) ∧
    ((60001 - 59500 : Nat) < RateLimits.REST.burstWindowMs) ∧
    (rateLimiterStep RateLimits.REST 100 60001
        (some { count := 5, resetAt := 60000, burstCount := 7, lastBurstReset := 59500 })).2.burstCount
      = 1 ∧
    ¬ (rateLimiterStep RateLimits.REST 100 60001
        (some { count := 5, resetAt := 60000, burstCount := 7, lastBurstReset := 59500 })).2.burstCount
      = 7 + 1 ∧
    (rateLimiterStep RateLimits.REST 100 60001
        (some { count := 5, resetAt := 60000, burstCount := 7, lastBurstReset := 59500 })).2.lastBurstReset
      = 60001 := by
  decide

/-- **C8, amended.**  The two windows are independent in one direction only:
the elapse of the burst window resets the burst counter and burst window
start while leaving the sustained counter and window reset time untouched,
and when neither window has elapsed both counters simply increment; but the
elapse of the sustained window recreates the whole entry, which also resets
the burst counter and moves the burst window start to `now`. -/
theorem claim_C8_amended (cfg : RateLimitConfig) (limit now : Nat)
    (e : RateLimitEntry) (hmono : e.lastBurstReset ≤ now) :
    (now ≤ e.resetAt → cfg.burstWindowMs ≤ now - e.lastBurstReset →
      (rateLimiterStep cfg limit now (some e)).2 =
        { count := e.count + 1, resetAt := e.resetAt,
          burstCount := 1, lastBurstReset := now }) ∧
    (now ≤ e.resetAt → now - e.lastBurstReset < cfg.burstWindowMs →
      (rateLimiterStep cfg limit now (some e)).2 =
        { e with count := e.count + 1, burstCount := e.burstCount + 1 }) ∧
    (e.resetAt < now →
      (rateLimiterStep cfg limit now (some e)).2 =
        { count := 1, resetAt := now + cfg.windowMs,
          burstCount := 1, lastBurstReset := now }) := by
  refine ⟨?_, ?_, ?_⟩
  · intro hlive hbe
    have hfresh : ¬ e.resetAt < now := by omega
    simp only [rateLimiterStep, refreshEntry, if_neg hfresh, refreshBurst, if_pos hbe]
    split
    · rfl
    · split <;> rfl
  · intro hlive hbl
    have hfresh : ¬ e.resetAt < now := by omega
    have hbe : ¬ cfg.burstWindowMs ≤ now - e.lastBurstReset := by omega
    simp only [rateLimiterStep, refreshEntry, if_neg hfresh, refreshBurst, if_neg hbe]
    split
    · rfl
    · split <;> rfl
  · intro hel
    simp only [rateLimiterStep, refreshEntry, if_pos hel, refreshBurst]
    split
    · split
      · rfl
      · split <;> rfl
    · split
      · rfl
      · split <;> rfl

/-- Witness for the amended C8 at a concrete entry (burst window elapsed,
sustained window live). -/
theorem claim_C8_witness :
    (({ count := 5, resetAt := 60000, burstCount := 7,
        lastBurstReset := 2000 } : RateLimitEntry).lastBurstReset ≤ 4000) ∧
    (let cfg := RateLimits.REST
     let e : RateLimitEntry :=
       { count := 5, resetAt := 60000, burstCount := 7, lastBurstReset := 2000 }
     (4000 ≤ e.resetAt → cfg.burstWindowMs ≤ 4000 - e.lastBurstReset →
       (rateLimiterStep cfg 100 4000 (some e)).2 =
         { count := e.count + 1, resetAt := e.resetAt,
           burstCount := 1, lastBurstReset := 4000 }) ∧
     (4000 ≤ e.resetAt → 4000 - e.lastBurstReset < cfg.burstWindowMs →
       (rateLimiterStep cfg 100 4000 (some e)).2 =
         { e with count := e.count + 1, burstCount := e.burstCount + 1 }) ∧
     (e.resetAt < 4000 →
       (rateLimiterStep cfg 100 4000 (some e)).2 =
         { count := 1, resetAt := 4000 + cfg.windowMs,
           burstCount := 1, lastBurstReset := 4000 })) :=
  ⟨by decide,
    claim_C8_amended RateLimits.REST 100 4000
      { count := 5, resetAt := 60000, burstCount := 7, lastBurstReset := 2000 }
      (by decide)⟩

/-- **C10.**  On every call both counters are incremented before the limit
checks and the incremented entry is what remains stored, regardless of the
decision — a rejected request still consumes quota from both windows.  The
concrete trace (window 60000 ms, sustained limit 2, burst limit 1) shows a
burst-rejected request consuming sustained quota: request 1 at `t = 0` is
admitted, request 2 at `t = 0` is burst-rejected, and request 3 at
`t = 1000` (burst window elapsed, burst counter back to 1) is rejected on
the sustained check with count 3, even though only one request was ever
admitted. -/
theorem claim_C10 (cfg : RateLimitConfig) (limit now : Nat)
    (stored : Option RateLimitEntry) :
    ((rateLimiterStep cfg limit now stored).2 =
      { refreshBurst cfg now (refreshEntry cfg.windowMs now stored) with
        count := (refreshBurst cfg now (refreshEntry cfg.windowMs now stored)).count + 1,
        burstCount :=
          (refreshBurst cfg now (refreshEntry cfg.windowMs now stored)).burstCount + 1 }) ∧
    ((rateLimiterStep { windowMs := 60000, limit := 2, burstLimit := 1, burstWindowMs := 1000 }
        2 0 none).1 = .admitted) ∧
    ((rateLimiterStep { windowMs := 60000, limit := 2, burstLimit := 1, burstWindowMs := 1000 }
        2 0
        (some (rateLimiterStep
          { windowMs := 60000, limit := 2, burstLimit := 1, burstWindowMs := 1000 }
          2 0 none).2)).1 = .burstRejected 1) ∧
    ((rateLimiterStep { windowMs := 60000, limit := 2, burstLimit := 1, burstWindowMs := 1000 }
        2 1000
        (some (rateLimiterStep
          { windowMs := 60000, limit := 2, burstLimit := 1, burstWindowMs := 1000 }
          2 0
          (some (rateLimiterStep
            { windowMs := 60000, limit := 2, burstLimit := 1, burstWindowMs := 1000 }
            2 0 none).2)).2)).1 = .sustainedRejected 59) := by
  refine ⟨?_, by decide, by decide, by decide⟩
  simp only [rateLimiterStep]
  split <;> [skip; split] <;> rfl

end RateLimit

namespace Queue

/-- `JobStatus` of the in-memory queue. -/
inductive JobStatus
  | pending
  | processing
  | completed
  | failed
  | dead
deriving DecidableEq, Repr

/-- `JobPriority`. -/
inductive JobPriority
  | low
  | normal
  | high
  | critical
deriving DecidableEq, Repr

/-- `PRIORITY_WEIGHTS`. -/
def PRIORITY_WEIGHTS : JobPriority → Nat
  | .critical => 4
  | .high => 3
  | .normal => 2
  | .low => 1

/-- `QueueJob`.  Job ids are modelled as `Nat` (the source uses
`crypto.randomUUID()` strings; only identity matters).  The opaque payload,
result and the three timestamps are omitted: no claim concerns them. -/
structure QueueJob where
  id : Nat
  type : String
  priority : JobPriority
  status : JobStatus
  attempts : Nat
  maxAttempts : Nat
  error : Option String
deriving DecidableEq, Repr

/-- The mutable collections of `MemoryQueue`: the active `jobs` map and the
`deadLetterQueue` map, both insertion-ordered (JavaScript `Map` iterates in
insertion order), plus an instrumentation counter of handler invocations.
The `processing` set is always empty between steps under the single-worker
synchronous execution modelled here. -/
structure QueueState where
  jobs : List QueueJob
  deadLetterQueue : List QueueJob
  handlerCalls : Nat
deriving DecidableEq, Repr

/-- JavaScript `Map.set`: replace in place if the key exists, else append. -/
def setById (l : List QueueJob) (j : QueueJob) : List QueueJob :=
  if l.any (fun k => decide (k.id = j.id)) then
    l.map (fun k => if k.id = j.id then j else k)
  else
    l ++ [j]

/-- In-place mutation of the map entry with id `i` (the source mutates the
job object, which is the entry of the `Map`, so its position is kept). -/
def updateJob (l : List QueueJob) (i : Nat) (j : QueueJob) : List QueueJob :=
  l.map (fun k => if k.id = i then j else k)

/-- One comparison of the selection fold: a later job replaces the current
best only when its priority weight is strictly greater, so ties keep the
earlier job. -/
def selectStep (best : Option QueueJob) (j : QueueJob) : Option QueueJob :=
  match best with
  | none => some j
  | some b =>
      if PRIORITY_WEIGHTS b.priority < PRIORITY_WEIGHTS j.priority then some j
      else some b

/-- The selection of `processNext` (lines 323-328): take the pending jobs in
map (= insertion) order and sort them by descending priority weight with
`Array.prototype.sort((a, b) => WEIGHTS[b] - WEIGHTS[a])`, which is stable,
then take the first.  The head of a stable descending sort is the first
element of maximal weight, which this left fold computes. -/
def selectNext (jobs : List QueueJob) : Option QueueJob :=
  (jobs.filter (fun j => decide (j.status = JobStatus.pending))).foldl selectStep none

/-- `MemoryQueue.processNext` (lines 320-384), one worker step with the
handler run synchronously.  The handler returns `Except.error msg` to model
a throw.  On success the job stays in the map with status `completed`; on
failure with exhausted attempts it is moved to the dead-letter map; on
failure with attempts remaining its status returns to `pending` in place
(the computed backoff delay does not gate re-eligibility). -/
def processNext (handler : QueueJob → Except String Unit) (s : QueueState) :
    QueueState :=
  match selectNext s.jobs with
  | none => s
  | some job =>
      let j1 : QueueJob :=
        { job with status := JobStatus.processing, attempts := job.attempts + 1 }
      match handler j1 with
      | Except.ok _ =>
          { s with
            jobs := updateJob s.jobs job.id { j1 with status := JobStatus.completed },
            handlerCalls := s.handlerCalls + 1 }
      | Except.error msg =>
          let j2 : QueueJob := { j1 with error := some msg }
          if j2.maxAttempts ≤ j2.attempts then
            { s with
              jobs := (s.jobs.filter (fun k => !decide (k.id = job.id))),
              deadLetterQueue :=
                setById s.deadLetterQueue { j2 with status := JobStatus.dead },
              handlerCalls := s.handlerCalls + 1 }
          else
            { s with
              jobs := updateJob s.jobs job.id { j2 with status := JobStatus.pending },
              handlerCalls := s.handlerCalls + 1 }

/-- `MemoryQueue.retryDeadLetter` (lines 435-447). -/
def retryDeadLetter (s : QueueState) (jobId : Nat) : Bool × QueueState :=
  match s.deadLetterQueue.find? (fun j => decide (j.id = jobId)) with
  | none => (false, s)
  | some j =>
      let j1 : QueueJob :=
        { j with status := JobStatus.pending, attempts := 0, error := none }
      (true,
        { s with
          jobs := setById s.jobs j1,
          deadLetterQueue :=
            s.deadLetterQueue.filter (fun k => !decide (k.id = jobId)) })

/-- `MemoryQueue.clearCompleted` (lines 452-461). -/
def clearCompleted (s : QueueState) : QueueState :=
  { s with jobs := s.jobs.filter (fun j => !decide (j.status = JobStatus.completed)) }

/-- `k` worker steps. -/
def iterProcess (handler : QueueJob → Except String Unit) :
    Nat → QueueState → QueueState
  | 0, s => s
  | k + 1, s => processNext handler (iterProcess handler k s)

/-- **C5.**  A job with `maxAttempts = 3` whose handler always fails has its
handler invoked exactly three times (still pending with 1 resp. 2 recorded
attempts after the first two steps; after the third step the active map is
empty, the job sits in the dead-letter map with status `dead` and 3
attempts, and further worker steps change nothing, so the call counter stays
at 3); `retryDeadLetter` on its id then succeeds, resets the attempt counter
to 0 and the status to `pending`, clears the recorded error, and moves the
job back into the active map. -/
theorem claim_C5 :
    (iterProcess (fun _ => Except.error "boom") 1
        { jobs := [{ id := 0, type := "send-message", priority := .normal,
                     status := .pending, attempts := 0, maxAttempts := 3,
                     error := none }],
          deadLetterQueue := [], handlerCalls := 0 } =
      { jobs := [{ id := 0, type := "send-message", priority := .normal,
                   status := .pending, attempts := 1, maxAttempts := 3,
                   error := some "boom" }],
        deadLetterQueue := [], handlerCalls := 1 }) ∧
    (iterProcess (fun _ => Except.error "boom") 2
        { jobs := [{ id := 0, type := "send-message", priority := .normal,
                     status := .pending, attempts := 0, maxAttempts := 3,
                     error := none }],
          deadLetterQueue := [], handlerCalls := 0 } =
      { jobs := [{ id := 0, type := "send-message", priority := .normal,
                   status := .pending, attempts := 2, maxAttempts := 3,
                   error := some "boom" }],
        deadLetterQueue := [], handlerCalls := 2 }) ∧
    (iterProcess (fun _ => Except.error "boom") 3
        { jobs := [{ id := 0, type := "send-message", priority := .normal,
                     status := .pending, attempts := 0, maxAttempts := 3,
                     error := none }],
          deadLetterQueue := [], handlerCalls := 0 } =
      { jobs := [],
        deadLetterQueue := [{ id := 0, type := "send-message", priority := .normal,
                              status := .dead, attempts := 3, maxAttempts := 3,
                              error := some "boom" }],
        handlerCalls := 3 }) ∧
    (iterProcess (fun _ => Except.error "boom") 10
        { jobs := [{ id := 0, type := "send-message", priority := .normal,
                     status := .pending, attempts := 0, maxAttempts := 3,
                     error := none }],
          deadLetterQueue := [], handlerCalls := 0 } =
      iterProcess (fun _ => Except.error "boom") 3
        { jobs := [{ id := 0, type := "send-message", priority := .normal,
                     status := .pending, attempts := 0, maxAttempts := 3,
                     error := none }],
          deadLetterQueue := [], handlerCalls := 0 }) ∧
    (retryDeadLetter
        { jobs := [],
          deadLetterQueue := [{ id := 0, type := "send-message", priority := .normal,
                                status := .dead, attempts := 3, maxAttempts := 3,
                                error := some "boom" }],
          handlerCalls := 3 } 0 =
      (true,
        { jobs := [{ id := 0, type := "send-message", priority := .normal,
                     status := .pending, attempts := 0, maxAttempts := 3,
                     error := none }],
          deadLetterQueue := [], handlerCalls := 3 })) := by
  refine ⟨rfl, rfl, rfl, rfl, rfl⟩

/-- Maximal priority weight of a list of jobs (0 if empty). -/
def maxWeight (l : List QueueJob) : Nat :=
  l.foldr (fun j m => max (PRIORITY_WEIGHTS j.priority) m) 0

lemma maxWeight_cons (a : QueueJob) (l : List QueueJob) :
    maxWeight (a :: l) = max (PRIORITY_WEIGHTS a.priority) (maxWeight l) := rfl

lemma le_maxWeight : ∀ (l : List QueueJob) (j : QueueJob), j ∈ l →
    PRIORITY_WEIGHTS j.priority ≤ maxWeight l := by
  intro l
  induction l with
  | nil => intro j h; cases h
  | cons a l ih =>
      intro j h
      rcases List.mem_cons.1 h with rfl | h
      · rw [maxWeight_cons]; exact Nat.le_max_left _ _
      · rw [maxWeight_cons]; exact le_trans (ih j h) (Nat.le_max_right _ _)

lemma foldl_selectStep_some (p : List QueueJob) : ∀ b : QueueJob,
    p.foldl selectStep (some b) =
      if maxWeight p ≤ PRIORITY_WEIGHTS b.priority then some b
      else p.find? (fun j => decide (maxWeight p = PRIORITY_WEIGHTS j.priority)) := by
  induction p with
  | nil => intro b; simp [maxWeight]
  | cons a p ih =>
      intro b
      rw [List.foldl_cons]
      by_cases hab :
          PRIORITY_WEIGHTS b.priority < PRIORITY_WEIGHTS a.priority
      · have hstep : selectStep (some b) a = some a := by simp [selectStep, hab]
        rw [hstep, ih a, maxWeight_cons]
        by_cases h1 : maxWeight p ≤ PRIORITY_WEIGHTS a.priority
        · have hm : max (PRIORITY_WEIGHTS a.priority) (maxWeight p) =
              PRIORITY_WEIGHTS a.priority := by omega
          have hc : ¬ max (PRIORITY_WEIGHTS a.priority) (maxWeight p) ≤
              PRIORITY_WEIGHTS b.priority := by omega
          rw [if_pos h1, if_neg hc, List.find?_cons]
          simp [hm]
        · have hm : max (PRIORITY_WEIGHTS a.priority) (maxWeight p) = maxWeight p := by
            omega
          have hc : ¬ max (PRIORITY_WEIGHTS a.priority) (maxWeight p) ≤
              PRIORITY_WEIGHTS b.priority := by omega
          have hne : ¬ maxWeight p = PRIORITY_WEIGHTS a.priority := by omega
          rw [if_neg h1, if_neg hc, List.find?_cons]
          simp [hm, hne]
      · have hstep : selectStep (some b) a = some b := by simp [selectStep, hab]
        rw [hstep, ih b, maxWeight_cons]
        by_cases h1 : maxWeight p ≤ PRIORITY_WEIGHTS b.priority
        · have hc : max (PRIORITY_WEIGHTS a.priority) (maxWeight p) ≤
              PRIORITY_WEIGHTS b.priority := by omega
          rw [if_pos h1, if_pos hc]
        · have hm : max (PRIORITY_WEIGHTS a.priority) (maxWeight p) = maxWeight p := by
            omega
          have hc : ¬ max (PRIORITY_WEIGHTS a.priority) (maxWeight p) ≤
              PRIORITY_WEIGHTS b.priority := by omega
          have hne : ¬ maxWeight p = PRIORITY_WEIGHTS a.priority := by omega
          rw [if_neg h1, if_neg hc, List.find?_cons]
          simp [hm, hne]

/-- `selectNext` returns the first pending job (in insertion order) whose
priority weight is the maximum over all pending jobs. -/
lemma selectNext_eq (jobs : List QueueJob) :
    selectNext jobs =
      (jobs.filter (fun j => decide (j.status = JobStatus.pending))).find?
        (fun j => decide
          (maxWeight (jobs.filter (fun j => decide (j.status = JobStatus.pending))) =
            PRIORITY_WEIGHTS j.priority)) := by
  unfold selectNext
  cases hp : jobs.filter (fun j => decide (j.status = JobStatus.pending)) with
  | nil => simp
  | cons a p =>
      rw [List.foldl_cons]
      have hstep : selectStep none a = some a := rfl
      rw [hstep, foldl_selectStep_some, maxWeight_cons]
      by_cases h1 : maxWeight p ≤ PRIORITY_WEIGHTS a.priority
      · have hm : max (PRIORITY_WEIGHTS a.priority) (maxWeight p) =
            PRIORITY_WEIGHTS a.priority := by omega
        rw [if_pos h1, List.find?_cons]
        simp [hm]
      · have hm : max (PRIORITY_WEIGHTS a.priority) (maxWeight p) = maxWeight p := by
          omega
        have hne : ¬ maxWeight p = PRIORITY_WEIGHTS a.priority := by omega
        rw [if_neg h1, List.find?_cons]
        simp [hm, hne]

/-- The selected job is a pending member of the map with maximal priority
weight among pending jobs. -/
lemma selectNext_sound {jobs : List QueueJob} {j : QueueJob}
    (h : selectNext jobs = some j) :
    j ∈ jobs ∧ j.status = JobStatus.pending ∧
      ∀ k ∈ jobs, k.status = JobStatus.pending →
        PRIORITY_WEIGHTS k.priority ≤ PRIORITY_WEIGHTS j.priority := by
  rw [selectNext_eq] at h
  have hmem := List.mem_of_find?_eq_some h
  have hpred := List.find?_some h
  have hmem' := List.mem_filter.1 hmem
  have hpend : j.status = JobStatus.pending := by
    have := hmem'.2
    simpa using this
  refine ⟨hmem'.1, hpend, ?_⟩
  intro k hk hkp
  have hkf : k ∈ jobs.filter (fun j => decide (j.status = JobStatus.pending)) :=
    List.mem_filter.2 ⟨hk, by simp [hkp]⟩
  have hle := le_maxWeight _ k hkf
  have heq : maxWeight (jobs.filter (fun j => decide (j.status = JobStatus.pending))) =
      PRIORITY_WEIGHTS j.priority := by simpa using hpred
  omega

lemma processNext_none (handler : QueueJob → Except String Unit) (s : QueueState)
    (h : selectNext s.jobs = none) : processNext handler s = s := by
  simp [processNext, h]

lemma processNext_ok (handler : QueueJob → Except String Unit) (s : QueueState)
    (j : QueueJob) (hsel : selectNext s.jobs = some j)
    (hok : handler { j with status := JobStatus.processing,
                            attempts := j.attempts + 1 } = Except.ok ()) :
    processNext handler s =
      { s with
        jobs := updateJob s.jobs j.id
          { j with status := JobStatus.completed, attempts := j.attempts + 1 },
        handlerCalls := s.handlerCalls + 1 } := by
  simp [processNext, hsel, hok]

lemma processNext_err_dead (handler : QueueJob → Except String Unit)
    (s : QueueState) (j : QueueJob) (msg : String)
    (hsel : selectNext s.jobs = some j)
    (herr : handler { j with status := JobStatus.processing,
                             attempts := j.attempts + 1 } = Except.error msg)
    (hmax : j.maxAttempts ≤ j.attempts + 1) :
    processNext handler s =
      { s with
        jobs := s.jobs.filter (fun k => !decide (k.id = j.id)),
        deadLetterQueue := setById s.deadLetterQueue
          { j with status := JobStatus.dead, attempts := j.attempts + 1,
                   error := some msg },
        handlerCalls := s.handlerCalls + 1 } := by
  simp [processNext, hsel, herr, hmax]

lemma processNext_err_retry (handler : QueueJob → Except String Unit)
    (s : QueueState) (j : QueueJob) (msg : String)
    (hsel : selectNext s.jobs = some j)
    (herr : handler { j with status := JobStatus.processing,
                             attempts := j.attempts + 1 } = Except.error msg)
    (hmax : ¬ j.maxAttempts ≤ j.attempts + 1) :
    processNext handler s =
      { s with
        jobs := updateJob s.jobs j.id
          { j with status := JobStatus.pending, attempts := j.attempts + 1,
                   error := some msg },
        handlerCalls := s.handlerCalls + 1 } := by
  simp [processNext, hsel, herr, hmax]

lemma mem_of_mem_updateJob {l : List QueueJob} {i : Nat} {j x : QueueJob}
    (hx : x ∈ updateJob l i j) : x = j ∨ x ∈ l := by
  simp only [updateJob, List.mem_map] at hx
  obtain ⟨k, hk, he⟩ := hx
  by_cases h : k.id = i
  · left; rw [← he, if_pos h]
  · right; rw [← he, if_neg h]; exact hk

lemma exists_id_updateJob (l : List QueueJob) (j : QueueJob) {n : Nat} :
    (∃ x ∈ updateJob l j.id j, x.id = n) ↔ (∃ x ∈ l, x.id = n) := by
  simp only [updateJob, List.mem_map]
  constructor
  · rintro ⟨x, ⟨k, hk, rfl⟩, hn⟩
    refine ⟨k, hk, ?_⟩
    by_cases h : k.id = j.id
    · rw [h]; simpa [h] using hn
    · simpa [h] using hn
  · rintro ⟨k, hk, hn⟩
    refine ⟨if k.id = j.id then j else k, ⟨k, hk, rfl⟩, ?_⟩
    by_cases h : k.id = j.id
    · rw [if_pos h, ← h]; exact hn
    · rw [if_neg h]; exact hn

lemma mem_of_mem_setById {l : List QueueJob} {j x : QueueJob}
    (hx : x ∈ setById l j) : x = j ∨ x ∈ l := by
  simp only [setById] at hx
  split at hx
  · simp only [List.mem_map] at hx
    obtain ⟨k, hk, he⟩ := hx
    by_cases h : k.id = j.id
    · left; rw [← he, if_pos h]
    · right; rw [← he, if_neg h]; exact hk
  · rcases List.mem_append.1 hx with h | h
    · right; exact h
    · left; simpa using h

lemma exists_id_setById {l : List QueueJob} {j : QueueJob} {n : Nat} :
    (∃ x ∈ setById l j, x.id = n) ↔ (n = j.id ∨ ∃ x ∈ l, x.id = n) := by
  simp only [setById]
  split
  case isTrue hany =>
    obtain ⟨k0, hk0, hid0⟩ : ∃ k ∈ l, k.id = j.id := by
      simpa using hany
    constructor
    · rintro ⟨x, hx, hxn⟩
      rcases List.mem_map.1 hx with ⟨k, hk, rfl⟩
      by_cases h : k.id = j.id
      · left; rw [← hxn, if_pos h]
      · right; refine ⟨k, hk, ?_⟩; rwa [if_neg h] at hxn
    · rintro (rfl | ⟨x, hx, hxn⟩)
      · exact ⟨j, List.mem_map.2 ⟨k0, hk0, by rw [if_pos hid0]⟩, rfl⟩
      · by_cases h : x.id = j.id
        · exact ⟨j, List.mem_map.2 ⟨k0, hk0, by rw [if_pos hid0]⟩, by rw [← hxn, h]⟩
        · exact ⟨x, List.mem_map.2 ⟨x, hx, by rw [if_neg h]⟩, hxn⟩
  case isFalse hany =>
    constructor
    · rintro ⟨x, hx, hxn⟩
      rcases List.mem_append.1 hx with h | h
      · right; exact ⟨x, h, hxn⟩
      · left; rw [← hxn]; simp only [List.mem_singleton] at h; rw [h]
    · rintro (rfl | ⟨x, hx, hxn⟩)
      · exact ⟨j, List.mem_append.2 (Or.inr (by simp)), rfl⟩
      · exact ⟨x, List.mem_append.2 (Or.inl hx), hxn⟩

/-- Preservation of the high-before-low invariant by one worker step with an
always-succeeding handler, on a state whose jobs all have priority `high`
or `low`: priorities are preserved, and while some high-priority job is
still pending every low-priority job is untouched. -/
lemma highLow_step (handler : QueueJob → Except String Unit)
    (hok : ∀ j, handler j = Except.ok ()) (t : QueueState)
    (hpri : ∀ j ∈ t.jobs, j.priority = JobPriority.high ∨ j.priority = JobPriority.low)
    (hinv : (∃ h ∈ t.jobs, h.priority = JobPriority.high ∧ h.status = JobStatus.pending) →
      ∀ l ∈ t.jobs, l.priority = JobPriority.low →
        l.status = JobStatus.pending ∧ l.attempts = 0) :
    (∀ j ∈ (processNext handler t).jobs,
      j.priority = JobPriority.high ∨ j.priority = JobPriority.low) ∧
    ((∃ h ∈ (processNext handler t).jobs,
        h.priority = JobPriority.high ∧ h.status = JobStatus.pending) →
      ∀ l ∈ (processNext handler t).jobs, l.priority = JobPriority.low →
        l.status = JobStatus.pending ∧ l.attempts = 0) := by
  cases hsel : selectNext t.jobs with
  | none =>
      rw [processNext_none handler t hsel]
      exact ⟨hpri, hinv⟩
  | some j =>
      obtain ⟨hjmem, hjpend, hjmax⟩ := selectNext_sound hsel
      rw [processNext_ok handler t j hsel (hok _)]
      constructor
      · intro x hx
        rcases mem_of_mem_updateJob hx with rfl | hx'
        · exact hpri j hjmem
        · exact hpri x hx'
      · rintro ⟨h, hh, hhp, hhs⟩ l hl hlp
        -- a high-priority pending job survives the step, so one existed before
        have hhmem : h ∈ t.jobs := by
          rcases mem_of_mem_updateJob hh with rfl | hh'
          · cases hhs
          · exact hh'
        have hp : ∃ h ∈ t.jobs, h.priority = JobPriority.high ∧
            h.status = JobStatus.pending := ⟨h, hhmem, hhp, hhs⟩
        -- the selected job cannot be low-priority while a high one is pending
        have hjhigh : j.priority = JobPriority.high := by
          rcases hpri j hjmem with hj | hj
          · exact hj
          · exfalso
            have := hjmax h hhmem hhs
            rw [hhp, hj] at this
            simp [PRIORITY_WEIGHTS] at this
        rcases mem_of_mem_updateJob hl with rfl | hl'
        · rw [hjhigh] at hlp; cases hlp
        · exact hinv hp l hl' hlp

/-- **C6.**  Each worker step selects the first pending job (in insertion
order) of maximal priority weight: `selectNext` equals `find?` over the
pending jobs for the maximal weight, and any selected job is a pending
member of the map whose weight dominates every pending job, with weights
ordered critical > high > normal > low.  Consequently, with worker
concurrency 1 and an always-succeeding handler, starting from any state of
freshly enqueued `high`/`low` jobs, after any number of steps: as long as
some high-priority job is still pending, every low-priority job is still
pending with attempt count 0 — no low job has begun processing. -/
theorem claim_C6 (jobs : List QueueJob) (handler : QueueJob → Except String Unit)
    (s : QueueState) (k : Nat)
    (hok : ∀ j, handler j = Except.ok ())
    (hpri : ∀ j ∈ s.jobs, j.priority = JobPriority.high ∨ j.priority = JobPriority.low)
    (hinit : ∀ j ∈ s.jobs, j.status = JobStatus.pending ∧ j.attempts = 0) :
    (PRIORITY_WEIGHTS .low < PRIORITY_WEIGHTS .normal ∧
      PRIORITY_WEIGHTS .normal < PRIORITY_WEIGHTS .high ∧
      PRIORITY_WEIGHTS .high < PRIORITY_WEIGHTS .critical) ∧
    (selectNext jobs =
      (jobs.filter (fun j => decide (j.status = JobStatus.pending))).find?
        (fun j => decide
          (maxWeight (jobs.filter (fun j => decide (j.status = JobStatus.pending))) =
            PRIORITY_WEIGHTS j.priority))) ∧
    (∀ j, selectNext jobs = some j →
      j ∈ jobs ∧ j.status = JobStatus.pending ∧
        ∀ x ∈ jobs, x.status = JobStatus.pending →
          PRIORITY_WEIGHTS x.priority ≤ PRIORITY_WEIGHTS j.priority) ∧
    ((∃ h ∈ (iterProcess handler k s).jobs,
        h.priority = JobPriority.high ∧ h.status = JobStatus.pending) →
      ∀ l ∈ (iterProcess handler k s).jobs, l.priority = JobPriority.low →
        l.status = JobStatus.pending ∧ l.attempts = 0) := by
  refine ⟨by decide, selectNext_eq jobs, fun j h => selectNext_sound h, ?_⟩
  have main : ∀ m : Nat,
      (∀ j ∈ (iterProcess handler m s).jobs,
        j.priority = JobPriority.high ∨ j.priority = JobPriority.low) ∧
      ((∃ h ∈ (iterProcess handler m s).jobs,
          h.priority = JobPriority.high ∧ h.status = JobStatus.pending) →
        ∀ l ∈ (iterProcess handler m s).jobs, l.priority = JobPriority.low →
          l.status = JobStatus.pending ∧ l.attempts = 0) := by
    intro m
    induction m with
    | zero =>
        refine ⟨hpri, ?_⟩
        intro _ l hl _
        exact hinit l hl
    | succ m ih =>
        exact highLow_step handler hok (iterProcess handler m s) ih.1 ih.2
  exact (main k).2

/-- Witness for C6: four alternating high/low jobs, two worker steps.  After
two steps both high jobs are completed; the hypothesis list and the
conclusion are discharged at this concrete state. -/
theorem claim_C6_witness :
    (∀ j : QueueJob,
      (fun _ : QueueJob => (Except.ok () : Except String Unit)) j = Except.ok ()) ∧
    (let s0 : QueueState :=
      { jobs := [{ id := 0, type := "job", priority := .high, status := .pending,
                   attempts := 0, maxAttempts := 3, error := none },
                 { id := 1, type := "job", priority := .low, status := .pending,
                   attempts := 0, maxAttempts := 3, error := none },
                 { id := 2, type := "job", priority := .high, status := .pending,
                   attempts := 0, maxAttempts := 3, error := none },
                 { id := 3, type := "job", priority := .low, status := .pending,
                   attempts := 0, maxAttempts := 3, error := none }],
        deadLetterQueue := [], handlerCalls := 0 }
     (PRIORITY_WEIGHTS .low < PRIORITY_WEIGHTS .normal ∧
       PRIORITY_WEIGHTS .normal < PRIORITY_WEIGHTS .high ∧
       PRIORITY_WEIGHTS .high < PRIORITY_WEIGHTS .critical) ∧
     (selectNext s0.jobs =
       (s0.jobs.filter (fun j => decide (j.status = JobStatus.pending))).find?
         (fun j => decide
           (maxWeight (s0.jobs.filter (fun j => decide (j.status = JobStatus.pending))) =
             PRIORITY_WEIGHTS j.priority))) ∧
     (∀ j, selectNext s0.jobs = some j →
       j ∈ s0.jobs ∧ j.status = JobStatus.pending ∧
         ∀ x ∈ s0.jobs, x.status = JobStatus.pending →
           PRIORITY_WEIGHTS x.priority ≤ PRIORITY_WEIGHTS j.priority) ∧
     ((∃ h ∈ (iterProcess (fun _ => Except.ok ()) 1 s0).jobs,
         h.priority = JobPriority.high ∧ h.status = JobStatus.pending) →
       ∀ l ∈ (iterProcess (fun _ => Except.ok ()) 1 s0).jobs,
         l.priority = JobPriority.low →
           l.status = JobStatus.pending ∧ l.attempts = 0)) :=
  ⟨fun _ => rfl,
    claim_C6
      [{ id := 0, type := "job", priority := .high, status := .pending,
         attempts := 0, maxAttempts := 3, error := none },
       { id := 1, type := "job", priority := .low, status := .pending,
         attempts := 0, maxAttempts := 3, error := none },
       { id := 2, type := "job", priority := .high, status := .pending,
         attempts := 0, maxAttempts := 3, error := none },
       { id := 3, type := "job", priority := .low, status := .pending,
         attempts := 0, maxAttempts := 3, error := none }]
      (fun _ => Except.ok ())
      { jobs := [{ id := 0, type := "job", priority := .high, status := .pending,
                   attempts := 0, maxAttempts := 3, error := none },
                 { id := 1, type := "job", priority := .low, status := .pending,
                   attempts := 0, maxAttempts := 3, error := none },
                 { id := 2, type := "job", priority := .high, status := .pending,
                   attempts := 0, maxAttempts := 3, error := none },
                 { id := 3, type := "job", priority := .low, status := .pending,
                   attempts := 0, maxAttempts := 3, error := none }],
        deadLetterQueue := [], handlerCalls := 0 }
      1 (fun _ => rfl) (by decide) (by decide)⟩

/-- **C9, counterexample.**  The claim says no job with status `completed`
remains in the active set after a worker step.  One step on a single
pending job with an always-succeeding handler leaves the job in the active
map with status `completed` (it is only removed later by `clearCompleted`);
nothing is moved to the dead-letter map. -/
theorem claim_C9_counterexample :
    (processNext (fun _ => Except.ok ())
        { jobs := [{ id := 0, type := "send-message", priority := .normal,
                     status := .pending, attempts := 0, maxAttempts := 3,
                     error := none }],
          deadLetterQueue := [], handlerCalls := 0 }).jobs =
      [{ id := 0, type := "send-message", priority := .normal,
         status := .completed, attempts := 1, maxAttempts := 3,
         error := none }] ∧
    ((processNext (fun _ => Except.ok ())
        { jobs := [{ id := 0, type := "send-message", priority := .normal,
                     status := .pending, attempts := 0, maxAttempts := 3,
                     error := none }],
          deadLetterQueue := [], handlerCalls := 0 }).jobs.any
      (fun j => decide (j.status = JobStatus.completed)) = true) := by
  refine ⟨rfl, rfl⟩

/-- **C9, amended.**  After any worker step no job with status `dead`
remains in the active map (dead jobs are moved to the dead-letter map at
the moment they die), every job in the dead-letter map was already there or
has status `dead`, and no job is ever silently dropped: exactly the same
job ids populate the union of active and dead-letter maps before and after
the step.  Jobs that complete, however, stay in the active map with status
`completed` until `clearCompleted` removes exactly them. -/
theorem claim_C9_amended (handler : QueueJob → Except String Unit)
    (s : QueueState)
    (hnd : ∀ j ∈ s.jobs, ¬ j.status = JobStatus.dead) :
    (∀ j ∈ (processNext handler s).jobs, ¬ j.status = JobStatus.dead) ∧
    (∀ n : Nat,
      ((∃ j ∈ (processNext handler s).jobs, j.id = n) ∨
        (∃ j ∈ (processNext handler s).deadLetterQueue, j.id = n)) ↔
      ((∃ j ∈ s.jobs, j.id = n) ∨ (∃ j ∈ s.deadLetterQueue, j.id = n))) ∧
    (∀ j ∈ (processNext handler s).deadLetterQueue,
      j ∈ s.deadLetterQueue ∨ j.status = JobStatus.dead) ∧
    ((clearCompleted s).jobs =
      s.jobs.filter (fun j => !decide (j.status = JobStatus.completed))) := by
  cases hsel : selectNext s.jobs with
  | none =>
      rw [processNext_none handler s hsel]
      exact ⟨hnd, fun n => Iff.rfl, fun j hj => Or.inl hj, rfl⟩
  | some j =>
      obtain ⟨hjmem, hjpend, -⟩ := selectNext_sound hsel
      cases hh : handler { j with status := JobStatus.processing,
                                  attempts := j.attempts + 1 } with
      | ok u =>
          cases u
          rw [processNext_ok handler s j hsel hh]
          refine ⟨?_, ?_, fun x hx => Or.inl hx, rfl⟩
          · intro x hx
            rcases mem_of_mem_updateJob hx with rfl | hx'
            · simp
            · exact hnd x hx'
          · intro n
            constructor
            · rintro (h | h)
              · exact Or.inl ((exists_id_updateJob s.jobs
                  { j with status := JobStatus.completed,
                           attempts := j.attempts + 1 }).1 h)
              · exact Or.inr h
            · rintro (h | h)
              · exact Or.inl ((exists_id_updateJob s.jobs
                  { j with status := JobStatus.completed,
                           attempts := j.attempts + 1 }).2 h)
              · exact Or.inr h
      | error msg =>
          by_cases hmax : j.maxAttempts ≤ j.attempts + 1
          · rw [processNext_err_dead handler s j msg hsel hh hmax]
            refine ⟨?_, ?_, ?_, rfl⟩
            · intro x hx
              exact hnd x (List.mem_filter.1 hx).1
            · intro n
              constructor
              · rintro (⟨x, hx, hxn⟩ | h)
                · exact Or.inl ⟨x, (List.mem_filter.1 hx).1, hxn⟩
                · rcases exists_id_setById.1 h with rfl | h'
                  · exact Or.inl ⟨j, hjmem, rfl⟩
                  · exact Or.inr h'
              · rintro (⟨x, hx, hxn⟩ | ⟨x, hx, hxn⟩)
                · by_cases hxi : x.id = j.id
                  · exact Or.inr (exists_id_setById.2 (Or.inl (by rw [← hxn, hxi])))
                  · exact Or.inl ⟨x, List.mem_filter.2 ⟨hx, by simp [hxi]⟩, hxn⟩
                · exact Or.inr (exists_id_setById.2 (Or.inr ⟨x, hx, hxn⟩))
            · intro x hx
              rcases mem_of_mem_setById hx with rfl | hx'
              · exact Or.inr rfl
              · exact Or.inl hx'
          · rw [processNext_err_retry handler s j msg hsel hh hmax]
            refine ⟨?_, ?_, fun x hx => Or.inl hx, rfl⟩
            · intro x hx
              rcases mem_of_mem_updateJob hx with rfl | hx'
              · simp
              · exact hnd x hx'
            · intro n
              constructor
              · rintro (h | h)
                · exact Or.inl ((exists_id_updateJob s.jobs
                    { j with status := JobStatus.pending,
                             attempts := j.attempts + 1,
                             error := some msg }).1 h)
                · exact Or.inr h
              · rintro (h | h)
                · exact Or.inl ((exists_id_updateJob s.jobs
                    { j with status := JobStatus.pending,
                             attempts := j.attempts + 1,
                             error := some msg }).2 h)
                · exact Or.inr h

/-- Witness for the amended C9 on a two-job state with one dead-lettering
handler failure. -/
theorem claim_C9_witness :
    (∀ j ∈ ({ jobs := [{ id := 0, type := "send-message", priority := .high,
                         status := .pending, attempts := 2, maxAttempts := 3,
                         error := none },
                       { id := 1, type := "webhook", priority := .low,
                         status := .pending, attempts := 0, maxAttempts := 3,
                         error := none }],
              deadLetterQueue := [], handlerCalls := 0 } : QueueState).jobs,
        ¬ j.status = JobStatus.dead) ∧
    ((∀ j ∈ (processNext (fun _ => Except.error "down")
        { jobs := [{ id := 0, type := "send-message", priority := .high,
                     status := .pending, attempts := 2, maxAttempts := 3,
                     error := none },
                   { id := 1, type := "webhook", priority := .low,
                     status := .pending, attempts := 0, maxAttempts := 3,
                     error := none }],
          deadLetterQueue := [], handlerCalls := 0 }).jobs,
        ¬ j.status = JobStatus.dead) ∧
      (∀ n : Nat,
        ((∃ j ∈ (processNext (fun _ => Except.error "down")
            { jobs := [{ id := 0, type := "send-message", priority := .high,
                         status := .pending, attempts := 2, maxAttempts := 3,
                         error := none },
                       { id := 1, type := "webhook", priority := .low,
                         status := .pending, attempts := 0, maxAttempts := 3,
                         error := none }],
              deadLetterQueue := [], handlerCalls := 0 }).jobs, j.id = n) ∨
          (∃ j ∈ (processNext (fun _ => Except.error "down")
            { jobs := [{ id := 0, type := "send-message", priority := .high,
                         status := .pending, attempts := 2, maxAttempts := 3,
                         error := none },
                       { id := 1, type := "webhook", priority := .low,
                         status := .pending, attempts := 0, maxAttempts := 3,
                         error := none }],
              deadLetterQueue := [], handlerCalls := 0 }).deadLetterQueue, j.id = n)) ↔
        ((∃ j ∈ ({ jobs := [{ id := 0, type := "send-message", priority := .high,
                              status := .pending, attempts := 2, maxAttempts := 3,
                              error := none },
                            { id := 1, type := "webhook", priority := .low,
                              status := .pending, attempts := 0, maxAttempts := 3,
                              error := none }],
                   deadLetterQueue := [], handlerCalls := 0 } : QueueState).jobs,
            j.id = n) ∨
          (∃ j ∈ ({ jobs := [{ id := 0, type := "send-message", priority := .high,
                               status := .pending, attempts := 2, maxAttempts := 3,
                               error := none },
                             { id := 1, type := "webhook", priority := .low,
                               status := .pending, attempts := 0, maxAttempts := 3,
                               error := none }],
                    deadLetterQueue := [], handlerCalls := 0 } : QueueState).deadLetterQueue,
            j.id = n))) ∧
      (∀ j ∈ (processNext (fun _ => Except.error "down")
          { jobs := [{ id := 0, type := "send-message", priority := .high,
                       status := .pending, attempts := 2, maxAttempts := 3,
                       error := none },
                     { id := 1, type := "webhook", priority := .low,
                       status := .pending, attempts := 0, maxAttempts := 3,
                       error := none }],
            deadLetterQueue := [], handlerCalls := 0 }).deadLetterQueue,
          j ∈ ({ jobs := [{ id := 0, type := "send-message", priority := .high,
                            status := .pending, attempts := 2, maxAttempts := 3,
                            error := none },
                          { id := 1, type := "webhook", priority := .low,
                            status := .pending, attempts := 0, maxAttempts := 3,
                            error := none }],
                 deadLetterQueue := [], handlerCalls := 0 } : QueueState).deadLetterQueue ∨
            j.status = JobStatus.dead) ∧
      ((clearCompleted
          { jobs := [{ id := 0, type := "send-message", priority := .high,
                       status := .pending, attempts := 2, maxAttempts := 3,
                       error := none },
                     { id := 1, type := "webhook", priority := .low,
                       status := .pending, attempts := 0, maxAttempts := 3,
                       error := none }],
            deadLetterQueue := [], handlerCalls := 0 }).jobs =
        ({ jobs := [{ id := 0, type := "send-message", priority := .high,
                      status := .pending, attempts := 2, maxAttempts := 3,
                      error := none },
                    { id := 1, type := "webhook", priority := .low,
                      status := .pending, attempts := 0, maxAttempts := 3,
                      error := none }],
           deadLetterQueue := [], handlerCalls := 0 } : QueueState).jobs.filter
          (fun j => !decide (j.status = JobStatus.completed)))) :=
  ⟨by decide,
    claim_C9_amended (fun _ => Except.error "down")
      { jobs := [{ id := 0, type := "send-message", priority := .high,
                   status := .pending, attempts := 2, maxAttempts := 3,
                   error := none },
                 { id := 1, type := "webhook", priority := .low,
                   status := .pending, attempts := 0, maxAttempts := 3,
                   error := none }],
        deadLetterQueue := [], handlerCalls := 0 }
      (by decide)⟩

end Queue

namespace Mcp

/-- One item of `ToolCallResult.content`. -/
structure ContentItem where
  type : String
  text : String
deriving DecidableEq, Repr

/-- `ToolCallResult`.  The optional `isError` field defaults to absent,
modelled as `false`. -/
structure ToolCallResult where
  content : List ContentItem
  isError : Bool := false
deriving DecidableEq, Repr

/-- What a registered tool handler does when applied to arguments: either
it resolves with a result or it throws with a message
(`err.message`). -/
inductive HandlerOutcome
  | ok (result : ToolCallResult)
  | thrown (message : String)

/-- The `JSON.stringify({ error: "Tool not found", code: "TOOL_NOT_FOUND" })`
payload of the not-found branch of `callTool`. -/
def toolNotFoundText : String :=
  "\x7b\"error\":\"Tool not found\",\"code\":\"TOOL_NOT_FOUND\"\x7d"

/-- The result `callTool` builds when no handler is registered under the
requested name: a single text content item carrying code
`TOOL_NOT_FOUND`, with `isError` set. -/
def toolNotFoundResult : ToolCallResult :=
  { content := [{ type := "text", text := toolNotFoundText }], isError := true }

/-- `JSON.stringify({ error: err.message, code: "INTERNAL_ERROR" })` for a
message free of characters that JSON escapes. -/
def internalErrorText (message : String) : String :=
  "\x7b\"error\":\"" ++ message ++ "\",\"code\":\"INTERNAL_ERROR\"\x7d"

/-- The result `callTool` builds when the handler throws: the raw
`err.message` is embedded in the text next to code `INTERNAL_ERROR`. -/
def internalErrorResult (message : String) : ToolCallResult :=
  { content := [{ type := "text", text := internalErrorText message }],
    isError := true }

/-- `this.toolHandlers.get(name)`: the handler registry is a JavaScript
`Map`, so keys are unique; registration order with unique keys makes
`find?` on the association list the exact lookup. -/
def lookupTool {Args : Type} (handlers : List (String × (Args → HandlerOutcome)))
    (name : String) : Option (Args → HandlerOutcome) :=
  (handlers.find? (fun h => decide (h.fst = name))).map Prod.snd

/-- `McpTestClient.callTool` (lines 44-68).  The second component of the
result records whether a registered handler was invoked (the call-history
bookkeeping is dropped; it does not affect the returned value). -/
def callTool {Args : Type} (handlers : List (String × (Args → HandlerOutcome)))
    (name : String) (args : Args) : ToolCallResult × Bool :=
  match lookupTool handlers name with
  | none => (toolNotFoundResult, false)
  | some handler =>
      match handler args with
      | .ok r => (r, true)
      | .thrown m => (internalErrorResult m, true)

/-- `MCP_ALLOWLIST`. -/
def MCP_ALLOWLIST : List String :=
  ["send_text_message", "reply_message", "get_contact_profile",
   "get_group_metadata", "set_typing", "get_conversation_state",
   "update_conversation_state", "add_to_history", "clear_conversation_state"]

/-- `MCP_DENYLIST`. -/
def MCP_DENYLIST : List String :=
  ["delete_session", "create_session", "raw_socket_access",
   "modify_credentials", "export_auth_state", "import_auth_state",
   "execute_raw_command", "list_all_sessions", "revoke_api_key"]

lemma lookupTool_eq_none {Args : Type}
    {handlers : List (String × (Args → HandlerOutcome))} {name : String}
    (h : ∀ p ∈ handlers, ¬ p.1 = name) : lookupTool handlers name = none := by
  unfold lookupTool
  rw [List.find?_eq_none.2]
  · rfl
  · intro p hp
    simpa using h p hp

/-- **C1.**  For every tool name with no registered handler — arbitrary
strings, and in particular every denylist name when only allowlisted tools
are registered (the denylist is disjoint from the allowlist) — `callTool`
returns the one fixed `TOOL_NOT_FOUND` error result with `isError` set and
invokes no handler; any two such names yield literally identical responses
for any arguments. -/
theorem claim_C1 {Args : Type}
    (handlers : List (String × (Args → HandlerOutcome)))
    (name1 name2 : String) (args1 args2 : Args)
    (hreg : ∀ p ∈ handlers, p.1 ∈ MCP_ALLOWLIST)
    (h1 : ∀ p ∈ handlers, ¬ p.1 = name1)
    (h2 : ∀ p ∈ handlers, ¬ p.1 = name2) :
    callTool handlers name1 args1 = (toolNotFoundResult, false) ∧
    callTool handlers name1 args1 = callTool handlers name2 args2 ∧
    (∀ d ∈ MCP_DENYLIST, ∀ a : Args,
      callTool handlers d a = (toolNotFoundResult, false)) ∧
    toolNotFoundResult.isError = true ∧
    toolNotFoundResult.content = [{ type := "text", text := toolNotFoundText }] := by
  have hcall : ∀ (n : String), (∀ p ∈ handlers, ¬ p.1 = n) →
      ∀ a : Args, callTool handlers n a = (toolNotFoundResult, false) := by
    intro n hn a
    unfold callTool
    rw [lookupTool_eq_none hn]
  refine ⟨hcall name1 h1 args1, ?_, ?_, rfl, rfl⟩
  · rw [hcall name1 h1 args1, hcall name2 h2 args2]
  · intro d hd a
    refine hcall d ?_ a
    intro p hp he
    have hall : p.1 ∈ MCP_ALLOWLIST := hreg p hp
    rw [he] at hall
    have : ∀ x ∈ MCP_DENYLIST, ¬ x ∈ MCP_ALLOWLIST := by decide
    exact this d hd hall

/-- Witness for C1: a registry holding only the allowlisted
`send_text_message`, probed with the denylisted `delete_session` and with a
nonexistent name. -/
theorem claim_C1_witness :
    (∀ p ∈ [("send_text_message",
        fun _ : Unit => HandlerOutcome.ok { content := [{ type := "text", text := "ok" }] })],
      p.1 ∈ MCP_ALLOWLIST) ∧
    (∀ p ∈ [("send_text_message",
        fun _ : Unit => HandlerOutcome.ok { content := [{ type := "text", text := "ok" }] })],
      ¬ p.1 = "delete_session") ∧
    (∀ p ∈ [("send_text_message",
        fun _ : Unit => HandlerOutcome.ok { content := [{ type := "text", text := "ok" }] })],
      ¬ p.1 = "no_such_tool_xyz") ∧
    (callTool [("send_text_message",
        fun _ : Unit => HandlerOutcome.ok { content := [{ type := "text", text := "ok" }] })]
        "delete_session" () = (toolNotFoundResult, false) ∧
      callTool [("send_text_message",
          fun _ : Unit => HandlerOutcome.ok { content := [{ type := "text", text := "ok" }] })]
          "delete_session" () =
        callTool [("send_text_message",
            fun _ : Unit => HandlerOutcome.ok { content := [{ type := "text", text := "ok" }] })]
            "no_such_tool_xyz" () ∧
      (∀ d ∈ MCP_DENYLIST, ∀ a : Unit,
        callTool [("send_text_message",
            fun _ : Unit => HandlerOutcome.ok { content := [{ type := "text", text := "ok" }] })]
            d a = (toolNotFoundResult, false)) ∧
      toolNotFoundResult.isError = true ∧
      toolNotFoundResult.content = [{ type := "text", text := toolNotFoundText }]) :=
  ⟨by intro p hp; rcases List.mem_singleton.1 hp with rfl; decide,
   by intro p hp; rcases List.mem_singleton.1 hp with rfl; decide,
   by intro p hp; rcases List.mem_singleton.1 hp with rfl; decide,
   claim_C1
     [("send_text_message",
       fun _ : Unit => HandlerOutcome.ok { content := [{ type := "text", text := "ok" }] })]
     "delete_session" "no_such_tool_xyz" () ()
     (by intro p hp; rcases List.mem_singleton.1 hp with rfl; decide)
     (by intro p hp; rcases List.mem_singleton.1 hp with rfl; decide)
     (by intro p hp; rcases List.mem_singleton.1 hp with rfl; decide)⟩

/-- **C2, counterexample.**  The claim says the result of a throwing
handler never includes the raw exception message.  A handler throwing
`"ECONNREFUSED 10.0.0.5:5432"` makes `callTool` return a result whose text
embeds that message verbatim next to code `INTERNAL_ERROR`; two different
thrown messages produce two different results, so the response depends on
— and reveals — the raw message. -/
theorem claim_C2_counterexample :
    (callTool [("send_text_message",
        fun _ : Unit => HandlerOutcome.thrown "ECONNREFUSED 10.0.0.5:5432")]
        "send_text_message" ()).1 =
      internalErrorResult "ECONNREFUSED 10.0.0.5:5432" ∧
    (internalErrorResult "ECONNREFUSED 10.0.0.5:5432").content =
      [{ type := "text",
         text := "\x7b\"error\":\"ECONNREFUSED 10.0.0.5:5432\",\"code\":\"INTERNAL_ERROR\"\x7d" }] ∧
    ¬ internalErrorResult "ECONNREFUSED 10.0.0.5:5432" = internalErrorResult "boom" := by
  refine ⟨rfl, rfl, by decide⟩

/-- **C2, amended.**  When a handler throws during a tool call, the caller
receives an error result whose code is the stable `INTERNAL_ERROR` from the
closed taxonomy and whose `isError` flag is set — but the raw exception
message is embedded verbatim in the error text (only stack traces are
absent, since only `err.message` is serialized). -/
theorem claim_C2_amended {Args : Type}
    (handlers : List (String × (Args → HandlerOutcome)))
    (name : String) (args : Args) (h : Args → HandlerOutcome) (m : String)
    (hl : lookupTool handlers name = some h)
    (hm : h args = .thrown m) :
    callTool handlers name args = (internalErrorResult m, true) ∧
    (internalErrorResult m).isError = true ∧
    (internalErrorResult m).content =
      [{ type := "text",
         text := "\x7b\"error\":\"" ++ m ++ "\",\"code\":\"INTERNAL_ERROR\"\x7d" }] := by
  refine ⟨?_, rfl, rfl⟩
  unfold callTool
  rw [hl]
  simp only [hm]

/-- Witness for the amended C2 at a concrete throwing handler. -/
theorem claim_C2_witness :
    (lookupTool [("send_text_message",
        fun _ : Unit => HandlerOutcome.thrown "boom")] "send_text_message" =
      some (fun _ : Unit => HandlerOutcome.thrown "boom")) ∧
    ((fun _ : Unit => HandlerOutcome.thrown "boom") () = HandlerOutcome.thrown "boom") ∧
    (callTool [("send_text_message",
        fun _ : Unit => HandlerOutcome.thrown "boom")] "send_text_message" () =
        (internalErrorResult "boom", true) ∧
      (internalErrorResult "boom").isError = true ∧
      (internalErrorResult "boom").content =
        [{ type := "text",
           text := "\x7b\"error\":\"" ++ "boom" ++ "\",\"code\":\"INTERNAL_ERROR\"\x7d" }]) :=
  ⟨rfl, rfl,
    claim_C2_amended [("send_text_message",
        fun _ : Unit => HandlerOutcome.thrown "boom")]
      "send_text_message" () (fun _ : Unit => HandlerOutcome.thrown "boom") "boom"
      rfl rfl⟩

end Mcp
